import Mathlib

/-!
Verification of the gesture-recognition engine (`engine.py`) of the
face-recognition / gesture-recognition repository.

The Python module is shallowly embedded: dictionaries with optional keys
become structures of `Option` fields, Python floats become `ℚ`, the mutable
`PerformanceMonitor` and `GestureRecognitionEngine` objects become immutable
structures with state-passing operations, and `time.time()` becomes an
explicit `now : ℚ` argument.  A Python `IndexError` is represented by the
`PyResult.indexError` constructor.
-/

/-- A Python metric sample dictionary: each of the four keys may be absent
(`metrics.get(key, 0)` is then `0`).  Numeric values are modelled as `ℚ`. -/
structure Metrics where
  latency_ms : Option ℚ
  cpu_percent : Option ℚ
  memory_mb : Option ℚ
  fps : Option ℚ
deriving DecidableEq

/-- The `performance_thresholds` dictionary: each key may be absent, in which
case `should_switch` falls back to its hard-coded default. -/
structure Thresholds where
  max_latency_ms : Option ℚ
  max_cpu_percent : Option ℚ
  max_memory_mb : Option ℚ
  min_fps : Option ℚ
deriving DecidableEq

/-- The `dynamic` sub-dictionary of the configuration. -/
structure DynamicConfig where
  enabled : Option Bool
  performance_thresholds : Option Thresholds
  evaluation_window : Option Nat
  switch_cooldown_seconds : Option ℚ
deriving DecidableEq

/-- The top-level JSON configuration dictionary.  `approaches` is the list of
keys of the `approaches` mapping, in insertion order (only the keys are read
by the code paths verified here). -/
structure Config where
  mode : Option String
  approach : Option String
  approaches : List String
  dynamic : Option DynamicConfig
deriving DecidableEq

/-- `config.get('dynamic', \x7b\x7d)`: the empty dictionary default. -/
def emptyDynamic : DynamicConfig := ⟨none, none, none, none⟩

/-- `dynamic.get('performance_thresholds', \x7b\x7d)`: the empty dictionary default. -/
def emptyThresholds : Thresholds := ⟨none, none, none, none⟩

/-- `validate_config(config)` from `engine.py`:
mode must be `static` or `dynamic`; in static mode `approach` must be
`mediapipe` or `smolvlm` and a key of `approaches`; in dynamic mode
`dynamic.enabled` must be truthy. -/
def validate_config (c : Config) : Bool :=
  if ¬ (c.mode = some "static" ∨ c.mode = some "dynamic") then false
  else if c.mode = some "static" then
    match c.approach with
    | none => false
    | some a =>
      if ¬ (a = "mediapipe" ∨ a = "smolvlm") then false
      else if a ∉ c.approaches then false
      else true
  else
    (c.dynamic.getD emptyDynamic).enabled.getD false

/-- The Python slice `lst[-ws:]`.  For `ws = 0` the index `-0` is `0`, so the
slice is the whole list; for `ws ≥ 1` it is the last `ws` elements. -/
def pyTailSlice (ws : Nat) (l : List ℚ) : List ℚ :=
  if ws = 0 then l else l.drop (l.length - ws)

/-- The trimming step of `PerformanceMonitor.record`:
`if len(lst) > window_size: lst = lst[-window_size:]`. -/
def trimWindow (ws : Nat) (l : List ℚ) : List ℚ :=
  if l.length > ws then pyTailSlice ws l else l

/-- The `PerformanceMonitor` object: thresholds, window size, and the four
metric history windows. -/
structure PerformanceMonitor where
  thresholds : Thresholds
  window_size : Nat
  latency_ms : List ℚ
  cpu_percent : List ℚ
  memory_mb : List ℚ
  fps : List ℚ
deriving DecidableEq

/-- `PerformanceMonitor.__init__(thresholds, window_size)`: all four history
windows start empty. -/
def mkMonitor (t : Thresholds) (ws : Nat) : PerformanceMonitor :=
  ⟨t, ws, [], [], [], []⟩

/-- `PerformanceMonitor.record(metrics)`: appends `metrics.get(key, 0)` to
each of the four windows, then trims each window to the most recent
`window_size` entries. -/
def PerformanceMonitor.record (m : PerformanceMonitor) (x : Metrics) :
    PerformanceMonitor :=
  { m with
    latency_ms := trimWindow m.window_size (m.latency_ms ++ [x.latency_ms.getD 0])
    cpu_percent := trimWindow m.window_size (m.cpu_percent ++ [x.cpu_percent.getD 0])
    memory_mb := trimWindow m.window_size (m.memory_mb ++ [x.memory_mb.getD 0])
    fps := trimWindow m.window_size (m.fps ++ [x.fps.getD 0]) }

/-- The per-window expression of `get_average_metrics`:
`sum(lst) / len(lst) if lst else 0`. -/
def listAvg (l : List ℚ) : ℚ :=
  if l.isEmpty then 0 else l.sum / l.length

/-- The dictionary returned by `get_average_metrics`. -/
structure AvgMetrics where
  latency_ms : ℚ
  cpu_percent : ℚ
  memory_mb : ℚ
  fps : ℚ
deriving DecidableEq

/-- `PerformanceMonitor.get_average_metrics()`. -/
def PerformanceMonitor.get_average_metrics (m : PerformanceMonitor) : AvgMetrics :=
  ⟨listAvg m.latency_ms, listAvg m.cpu_percent, listAvg m.memory_mb, listAvg m.fps⟩

/-- `PerformanceMonitor.should_switch()`: false while the latency window has
fewer than `window_size` entries; otherwise true iff any of the four averaged
metrics breaches its (defaulted) threshold. -/
def PerformanceMonitor.should_switch (m : PerformanceMonitor) : Bool :=
  if m.latency_ms.length < m.window_size then false
  else
    let avg := m.get_average_metrics
    if avg.latency_ms > m.thresholds.max_latency_ms.getD 1000 then true
    else if avg.cpu_percent > m.thresholds.max_cpu_percent.getD 80 then true
    else if avg.memory_mb > m.thresholds.max_memory_mb.getD 2000 then true
    else if avg.fps < m.thresholds.min_fps.getD 0.8 then true
    else false

/-- Feed a list of samples to a monitor, oldest first. -/
def recordAll (m : PerformanceMonitor) (xs : List Metrics) : PerformanceMonitor :=
  xs.foldl PerformanceMonitor.record m

/-- The `GestureRecognitionEngine` object.  In Python, `last_switch_time` and
`switch_cooldown` are only assigned in dynamic mode; here they are always
present but are only read on dynamic-mode code paths. -/
structure GestureRecognitionEngine where
  config : Config
  current_approach : Option String
  performance_monitor : Option PerformanceMonitor
  last_switch_time : ℚ
  switch_cooldown : ℚ
deriving DecidableEq

/-- `GestureRecognitionEngine.__init__(config)`: a performance monitor,
`last_switch_time = 0` and the cooldown are set up only in dynamic mode. -/
def initEngine (c : Config) : GestureRecognitionEngine :=
  if c.mode = some "dynamic" then
    let d := c.dynamic.getD emptyDynamic
    { config := c
      current_approach := none
      performance_monitor := some
        (mkMonitor (d.performance_thresholds.getD emptyThresholds)
          (d.evaluation_window.getD 5))
      last_switch_time := 0
      switch_cooldown := d.switch_cooldown_seconds.getD 10 }
  else
    { config := c
      current_approach := none
      performance_monitor := none
      last_switch_time := 0
      switch_cooldown := 10 }

/-- `GestureRecognitionEngine.get_available_approaches()`: the keys of the
`approaches` mapping. -/
def GestureRecognitionEngine.get_available_approaches
    (e : GestureRecognitionEngine) : List String :=
  e.config.approaches

/-- `GestureRecognitionEngine.switch_approach(from, to)`.  `now` is the value
of `time.time()` during the call.  Returns the Python return value together
with the engine state after the call. -/
def GestureRecognitionEngine.switch_approach (e : GestureRecognitionEngine)
    (from_approach to_approach : String) (now : ℚ) :
    Bool × GestureRecognitionEngine :=
  if to_approach ∉ e.get_available_approaches then (false, e)
  else if e.config.mode = some "dynamic" ∧ now - e.last_switch_time < e.switch_cooldown then
    (false, e)
  else
    let e1 := { e with current_approach := some to_approach }
    let e2 :=
      if e.config.mode = some "dynamic" then { e1 with last_switch_time := now }
      else e1
    (true, e2)

/-- Result of a Python call that may raise `IndexError`. -/
inductive PyResult (α : Type) where
  | ok (a : α) : PyResult α
  | indexError : PyResult α
deriving DecidableEq

/-- `GestureRecognitionEngine.should_switch_dynamically()`.  Taking `[0]` of
the filtered list raises `IndexError` when no available approach differs from
the current one. -/
def GestureRecognitionEngine.should_switch_dynamically
    (e : GestureRecognitionEngine) : PyResult (Option String) :=
  if e.config.mode ≠ some "dynamic" then .ok none
  else
    match e.performance_monitor with
    | none => .ok none
    | some pm =>
      if pm.should_switch then
        match e.get_available_approaches.filter
            (fun a => decide (some a ≠ e.current_approach)) with
        | [] => .indexError
        | x :: _ => .ok (some x)
      else .ok none

/-- The first line of `execute_dynamic_mode`:
`self.current_approach = self.config.get('approach', 'mediapipe')`. -/
def GestureRecognitionEngine.startDynamic (e : GestureRecognitionEngine) :
    GestureRecognitionEngine :=
  { e with current_approach := some (e.config.approach.getD "mediapipe") }

/-- Feed one sample to the engine's performance monitor (as the dynamic-mode
frame loop would via `self.performance_monitor.record(metrics)`). -/
def GestureRecognitionEngine.recordMetrics (e : GestureRecognitionEngine)
    (x : Metrics) : GestureRecognitionEngine :=
  { e with performance_monitor := e.performance_monitor.map (fun pm => pm.record x) }

/-- The most recent `n` entries of a list — the specification's
"most recent `window_size` samples" (`mostRecent n l = l` when `l` has at
most `n` entries). -/
def mostRecent (n : Nat) (l : List ℚ) : List ℚ :=
  l.drop (l.length - n)

/-! ### Concrete instances used in witnesses and counterexamples -/

/-- The thresholds of the specification's walk-through scenario:
`max_latency_ms = 500`, all other keys absent. -/
def exThresholds : Thresholds := ⟨some 500, none, none, none⟩

/-- A sample whose only present key is `latency_ms = 100`. -/
def sample100 : Metrics := ⟨some 100, none, none, none⟩

/-- A sample whose only present key is `latency_ms = 900`. -/
def sample900 : Metrics := ⟨some 900, none, none, none⟩

/-- The six samples of the specification's walk-through scenario: five with
latency `100`, then one with latency `900`. -/
def ex6 : List Metrics := [sample100, sample100, sample100, sample100, sample100, sample900]

/-- A monitor with window size `1` whose four windows each hold one value,
the latency one breaching the default threshold. -/
def exMonitorFull : PerformanceMonitor := ⟨emptyThresholds, 1, [2000], [50], [100], [5]⟩

/-- A valid static configuration over two registered approaches. -/
def cfgStatic : Config := ⟨some "static", some "mediapipe", ["mediapipe", "smolvlm"], none⟩

/-- A dynamic configuration with a single registered approach, evaluation
window `1` and cooldown `0`. -/
def cfgDynSingle : Config :=
  ⟨some "dynamic", some "mediapipe", ["mediapipe"],
    some ⟨some true, none, some 1, some 0⟩⟩

/-- A sample breaching the default latency threshold while leaving the other
metrics healthy. -/
def badSample : Metrics := ⟨some 2000, some 10, some 100, some 5⟩

/-- The engine reached from `cfgDynSingle` by entering dynamic mode and
recording one breaching sample: its monitor recommends switching, yet the
only registered approach is the current one. -/
def engineC8 : GestureRecognitionEngine :=
  ((initEngine cfgDynSingle).startDynamic).recordMetrics badSample

/-! ### Helper lemmas -/

/-- The head of a filtered list is the first element satisfying the
predicate. -/
lemma head?_filter_eq_find? {α : Type} (p : α → Bool) (l : List α) :
    (l.filter p).head? = l.find? p := by
  induction l with
  | nil => rfl
  | cons x xs ih =>
    by_cases h : p x
    · simp [List.filter_cons, List.find?, h]
    · simp [List.filter_cons, List.find?, h, ih]

/-- Trimming never discards the most recently appended entry. -/
lemma getLast?_trimWindow (ws : Nat) (l : List ℚ) (v : ℚ) :
    (trimWindow ws (l ++ [v])).getLast? = some v := by
  unfold trimWindow pyTailSlice
  by_cases h1 : (l ++ [v]).length > ws
  · simp only [h1, if_true]
    by_cases h0 : ws = 0
    · simp [h0, List.getLast?_concat]
    · simp only [h0, if_false]
      rw [List.drop_append_eq_append_drop]
      have h2 : ((l ++ [v]).length - ws) - l.length = 0 := by
        simp only [List.length_append, List.length_singleton]
        omega
      rw [h2]
      simp [List.getLast?_concat]
  · rw [if_neg h1]
    exact List.getLast?_concat l

/-- One `record` step preserves the "window = most recent `ws` entries"
invariant, for a positive window size. -/
lemma trimWindow_mostRecent_append (ws : Nat) (hws : 1 ≤ ws) (L : List ℚ)
    (v : ℚ) :
    trimWindow ws (mostRecent ws L ++ [v]) = mostRecent ws (L ++ [v]) := by
  unfold trimWindow pyTailSlice mostRecent
  by_cases hc : ws ≤ L.length
  · have hdl : (L.drop (L.length - ws)).length = ws := by
      rw [List.length_drop]; omega
    have hlen : (L.drop (L.length - ws) ++ [v]).length = ws + 1 := by
      simp [List.length_append, hdl]
    have hgt : (L.drop (L.length - ws) ++ [v]).length > ws := by omega
    simp only [hgt, if_true]
    have h0 : ¬ ws = 0 := by omega
    simp only [h0, if_false]
    have h1 : (L.drop (L.length - ws) ++ [v]).length - ws = 1 := by omega
    rw [h1, List.drop_append_eq_append_drop]
    have h2 : 1 - (L.drop (L.length - ws)).length = 0 := by omega
    rw [h2, List.drop_drop, List.drop_append_eq_append_drop]
    have h3 : (L ++ [v]).length - ws - L.length = 0 := by
      simp only [List.length_append, List.length_singleton]
      omega
    rw [h3]
    have h4 : L.length - ws + 1 = (L ++ [v]).length - ws := by
      simp only [List.length_append, List.length_singleton]
      omega
    rw [h4]
  · have hk : L.length - ws = 0 := by omega
    rw [hk, List.drop_zero]
    have hle : ¬ (L ++ [v]).length > ws := by
      simp only [List.length_append, List.length_singleton]
      omega
    simp only [hle, if_false]
    have hk2 : (L ++ [v]).length - ws = 0 := by
      simp only [List.length_append, List.length_singleton]
      omega
    rw [hk2, List.drop_zero]

/-- Feeding the samples `xs ++ [x]` is feeding `xs` and then `x`. -/
lemma recordAll_append_singleton (m : PerformanceMonitor) (xs : List Metrics)
    (x : Metrics) :
    recordAll m (xs ++ [x]) = (recordAll m xs).record x := by
  unfold recordAll
  rw [List.foldl_append]
  rfl

/-- After feeding `xs` to a fresh monitor with positive window size, each of
the four windows holds exactly the most recent `window_size` recorded values,
and the thresholds and window size are unchanged. -/
lemma recordAll_mkMonitor_windows (t : Thresholds) (ws : Nat) (hws : 1 ≤ ws)
    (xs : List Metrics) :
    (recordAll (mkMonitor t ws) xs).thresholds = t ∧
    (recordAll (mkMonitor t ws) xs).window_size = ws ∧
    (recordAll (mkMonitor t ws) xs).latency_ms
      = mostRecent ws (xs.map (fun x => x.latency_ms.getD 0)) ∧
    (recordAll (mkMonitor t ws) xs).cpu_percent
      = mostRecent ws (xs.map (fun x => x.cpu_percent.getD 0)) ∧
    (recordAll (mkMonitor t ws) xs).memory_mb
      = mostRecent ws (xs.map (fun x => x.memory_mb.getD 0)) ∧
    (recordAll (mkMonitor t ws) xs).fps
      = mostRecent ws (xs.map (fun x => x.fps.getD 0)) := by
  induction xs using List.reverseRecOn with
  | nil => simp [recordAll, mkMonitor, mostRecent]
  | append_singleton xs x ih =>
    obtain ⟨h1, h2, h3, h4, h5, h6⟩ := ih
    rw [recordAll_append_singleton]
    simp only [PerformanceMonitor.record]
    refine ⟨by simp [h1], by simp [h2], ?_, ?_, ?_, ?_⟩
    · rw [h2, h3, List.map_append, List.map_singleton]
      exact trimWindow_mostRecent_append ws hws _ _
    · rw [h2, h4, List.map_append, List.map_singleton]
      exact trimWindow_mostRecent_append ws hws _ _
    · rw [h2, h5, List.map_append, List.map_singleton]
      exact trimWindow_mostRecent_append ws hws _ _
    · rw [h2, h6, List.map_append, List.map_singleton]
      exact trimWindow_mostRecent_append ws hws _ _

/-! ### Claim theorems -/

/-- C7: `get_average_metrics` is total: for each of the four metric windows
it returns the arithmetic mean of the window's contents when the window is
non-empty and returns `0` when the window is empty, never dividing by
zero. -/
theorem get_average_metrics_total (m : PerformanceMonitor) :
    (m.latency_ms = [] → m.get_average_metrics.latency_ms = 0) ∧
    (m.latency_ms ≠ [] →
      m.get_average_metrics.latency_ms = m.latency_ms.sum / m.latency_ms.length) ∧
    (m.cpu_percent = [] → m.get_average_metrics.cpu_percent = 0) ∧
    (m.cpu_percent ≠ [] →
      m.get_average_metrics.cpu_percent = m.cpu_percent.sum / m.cpu_percent.length) ∧
    (m.memory_mb = [] → m.get_average_metrics.memory_mb = 0) ∧
    (m.memory_mb ≠ [] →
      m.get_average_metrics.memory_mb = m.memory_mb.sum / m.memory_mb.length) ∧
    (m.fps = [] → m.get_average_metrics.fps = 0) ∧
    (m.fps ≠ [] →
      m.get_average_metrics.fps = m.fps.sum / m.fps.length) := by
  refine ⟨fun h => ?_, fun h => ?_, fun h => ?_, fun h => ?_, fun h => ?_,
    fun h => ?_, fun h => ?_, fun h => ?_⟩ <;>
    simp [PerformanceMonitor.get_average_metrics, listAvg, h, List.isEmpty_iff]

/-- Witness for C7: on a fresh monitor the latency window is empty and the
reported average is `0`. -/
theorem get_average_metrics_total_witness :
    (mkMonitor emptyThresholds 5).get_average_metrics.latency_ms = 0 :=
  (get_average_metrics_total (mkMonitor emptyThresholds 5)).1 rfl

/-- C5: `validate_config(config)` returns true iff `mode` is `static` or
`dynamic`; in static mode `approach` must be `mediapipe` or `smolvlm` and a
key of `approaches`; in dynamic mode `dynamic.enabled` must be `true`
(`false` or absent fails). -/
theorem validate_config_iff (c : Config) :
    validate_config c = true ↔
      ((c.mode = some "static" ∨ c.mode = some "dynamic") ∧
        (c.mode = some "static" →
          ∃ a, c.approach = some a ∧ (a = "mediapipe" ∨ a = "smolvlm") ∧
            a ∈ c.approaches) ∧
        (c.mode = some "dynamic" →
          (c.dynamic.getD emptyDynamic).enabled = some true)) := by
  unfold validate_config
  by_cases h1 : c.mode = some "static"
  · rw [if_neg (not_not_intro (Or.inl h1)), if_pos h1]
    cases happ : c.approach with
    | none => simp [h1, happ]
    | some a =>
      by_cases h2 : a = "mediapipe" ∨ a = "smolvlm"
      · by_cases h3 : a ∈ c.approaches
        · simp [h1, happ, h2, h3]
        · simp [h1, happ, h2, h3]
      · simp [h1, happ, h2]
  · by_cases h4 : c.mode = some "dynamic"
    · rw [if_neg (not_not_intro (Or.inr h4)), if_neg h1]
      cases he : (c.dynamic.getD emptyDynamic).enabled with
      | none => simp [h1, h4, he]
      | some b => cases b <;> simp [h1, h4, he]
    · rw [if_pos (by tauto)]
      simp [h1, h4]

/-- Witness for C5: the valid static configuration over two registered
approaches validates. -/
theorem validate_config_iff_witness : validate_config cfgStatic = true :=
  (validate_config_iff cfgStatic).2
    ⟨Or.inl rfl, fun _ => ⟨"mediapipe", rfl, Or.inl rfl, by decide⟩,
      fun h => by simp [cfgStatic] at h⟩

/-- C2: once every window holds at least `window_size` samples,
`should_switch()` is true iff at least one of the four (defaulted)
thresholds is breached by the corresponding window average. -/
theorem should_switch_iff_threshold_breach (m : PerformanceMonitor)
    (hl : m.window_size ≤ m.latency_ms.length)
    (hc : m.window_size ≤ m.cpu_percent.length)
    (hm : m.window_size ≤ m.memory_mb.length)
    (hf : m.window_size ≤ m.fps.length) :
    m.should_switch = true ↔
      (listAvg m.latency_ms > m.thresholds.max_latency_ms.getD 1000 ∨
        listAvg m.cpu_percent > m.thresholds.max_cpu_percent.getD 80 ∨
        listAvg m.memory_mb > m.thresholds.max_memory_mb.getD 2000 ∨
        listAvg m.fps < m.thresholds.min_fps.getD 0.8) := by
  have h : ¬ m.latency_ms.length < m.window_size := by omega
  unfold PerformanceMonitor.should_switch
  rw [if_neg h]
  dsimp only [PerformanceMonitor.get_average_metrics]
  split_ifs with h1 h2 h3 h4
  · exact iff_of_true rfl (Or.inl h1)
  · exact iff_of_true rfl (Or.inr (Or.inl h2))
  · exact iff_of_true rfl (Or.inr (Or.inr (Or.inl h3)))
  · exact iff_of_true rfl (Or.inr (Or.inr (Or.inr h4)))
  · exact iff_of_false (by simp) (by tauto)

/-- Witness for C2: a monitor with window size `1` and one sample per
window. -/
theorem should_switch_iff_threshold_breach_witness :
    exMonitorFull.should_switch = true ↔
      (listAvg [2000] > 1000 ∨ listAvg [50] > 80 ∨ listAvg [100] > 2000 ∨
        listAvg [5] < 0.8) :=
  should_switch_iff_threshold_breach exMonitorFull (by decide) (by decide)
    (by decide) (by decide)

/-- C3: on a fresh monitor, recording fewer than `window_size` samples leaves
`should_switch()` false, whatever the samples and thresholds. -/
theorem should_switch_false_before_window_full (t : Thresholds) (ws : Nat)
    (xs : List Metrics) (h : xs.length < ws) :
    (recordAll (mkMonitor t ws) xs).should_switch = false := by
  have hws : 1 ≤ ws := by omega
  obtain ⟨-, h2, h3, -, -, -⟩ := recordAll_mkMonitor_windows t ws hws xs
  have hlen : (recordAll (mkMonitor t ws) xs).latency_ms.length <
      (recordAll (mkMonitor t ws) xs).window_size := by
    rw [h2, h3]
    unfold mostRecent
    rw [List.length_drop, List.length_map]
    omega
  unfold PerformanceMonitor.should_switch
  rw [if_pos hlen]

/-- Witness for C3: one enormous latency sample in a window of size `2` does
not trigger a switch. -/
theorem should_switch_false_before_window_full_witness :
    (recordAll (mkMonitor emptyThresholds 2) [badSample]).should_switch = false :=
  should_switch_false_before_window_full emptyThresholds 2 [badSample] (by decide)

/-- The average of a list of known positive length. -/
lemma listAvg_of_length (l : List ℚ) (n : Nat) (hn : 1 ≤ n)
    (h : l.length = n) : listAvg l = l.sum / n := by
  unfold listAvg
  have hne : ¬ l.isEmpty = true := by
    rw [List.isEmpty_iff]
    intro hnil
    rw [hnil] at h
    simp at h
    omega
  rw [if_neg hne, h]

/-- `mostRecent n` of a list with at least `n` entries has exactly `n`
entries. -/
lemma mostRecent_length (n : Nat) (l : List ℚ) (h : n ≤ l.length) :
    (mostRecent n l).length = n := by
  unfold mostRecent
  rw [List.length_drop]
  omega

/-- Counterexample for C4: at the claim's own concrete input — window size
`5`, recorded latencies `100,100,100,100,100,900` — the latency window is
indeed `[100,100,100,100,900]`, but its average is `1300 / 5 = 260`, not
`220` as the claim states. -/
theorem window_example_average_ne_220 :
    (recordAll (mkMonitor exThresholds 5) ex6).latency_ms
      = [100, 100, 100, 100, 900] ∧
    (recordAll (mkMonitor exThresholds 5) ex6).get_average_metrics.latency_ms
      ≠ 220 := by
  have hwin : (recordAll (mkMonitor exThresholds 5) ex6).latency_ms
      = [100, 100, 100, 100, 900] := by rfl
  refine ⟨hwin, ?_⟩
  show listAvg (recordAll (mkMonitor exThresholds 5) ex6).latency_ms ≠ 220
  rw [hwin]
  rw [listAvg_of_length [100, 100, 100, 100, 900] 5 (by decide) (by decide)]
  norm_num

/-- C4 (amended): for window capacity at least `1`, after `window_size + k`
recorded samples each of the four windows holds exactly the most recent
`window_size` values in order, and `get_average_metrics()` is the arithmetic
mean of those values; in the claim's example the window is
`[100,100,100,100,900]` and the average is `260` (not `220`). -/
theorem window_trim_and_average_spec (t : Thresholds) (ws : Nat)
    (xs : List Metrics) (hws : 1 ≤ ws) (hlen : ws ≤ xs.length) :
    (recordAll (mkMonitor t ws) xs).latency_ms
      = mostRecent ws (xs.map (fun x => x.latency_ms.getD 0)) ∧
    (recordAll (mkMonitor t ws) xs).cpu_percent
      = mostRecent ws (xs.map (fun x => x.cpu_percent.getD 0)) ∧
    (recordAll (mkMonitor t ws) xs).memory_mb
      = mostRecent ws (xs.map (fun x => x.memory_mb.getD 0)) ∧
    (recordAll (mkMonitor t ws) xs).fps
      = mostRecent ws (xs.map (fun x => x.fps.getD 0)) ∧
    (recordAll (mkMonitor t ws) xs).get_average_metrics.latency_ms
      = (mostRecent ws (xs.map (fun x => x.latency_ms.getD 0))).sum / ws ∧
    (recordAll (mkMonitor t ws) xs).get_average_metrics.cpu_percent
      = (mostRecent ws (xs.map (fun x => x.cpu_percent.getD 0))).sum / ws ∧
    (recordAll (mkMonitor t ws) xs).get_average_metrics.memory_mb
      = (mostRecent ws (xs.map (fun x => x.memory_mb.getD 0))).sum / ws ∧
    (recordAll (mkMonitor t ws) xs).get_average_metrics.fps
      = (mostRecent ws (xs.map (fun x => x.fps.getD 0))).sum / ws ∧
    (recordAll (mkMonitor exThresholds 5) ex6).latency_ms
      = [100, 100, 100, 100, 900] ∧
    (recordAll (mkMonitor exThresholds 5) ex6).get_average_metrics.latency_ms
      = 260 := by
  obtain ⟨-, -, h3, h4, h5, h6⟩ := recordAll_mkMonitor_windows t ws hws xs
  have havg : ∀ L : List ℚ, L.length = xs.length →
      listAvg (mostRecent ws L) = (mostRecent ws L).sum / ws := by
    intro L hL
    exact listAvg_of_length _ ws hws (mostRecent_length ws L (by omega))
  refine ⟨h3, h4, h5, h6, ?_, ?_, ?_, ?_, by rfl, ?_⟩
  · show listAvg (recordAll (mkMonitor t ws) xs).latency_ms = _
    rw [h3]; exact havg _ (by rw [List.length_map])
  · show listAvg (recordAll (mkMonitor t ws) xs).cpu_percent = _
    rw [h4]; exact havg _ (by rw [List.length_map])
  · show listAvg (recordAll (mkMonitor t ws) xs).memory_mb = _
    rw [h5]; exact havg _ (by rw [List.length_map])
  · show listAvg (recordAll (mkMonitor t ws) xs).fps = _
    rw [h6]; exact havg _ (by rw [List.length_map])
  · show listAvg (recordAll (mkMonitor exThresholds 5) ex6).latency_ms = 260
    have hwin : (recordAll (mkMonitor exThresholds 5) ex6).latency_ms
        = [100, 100, 100, 100, 900] := by rfl
    rw [hwin, listAvg_of_length [100, 100, 100, 100, 900] 5 (by decide) (by decide)]
    norm_num

/-- Witness for C4 (amended): at the example input the reported latency
average is `260`. -/
theorem window_trim_and_average_spec_witness :
    (recordAll (mkMonitor exThresholds 5) ex6).get_average_metrics.latency_ms
      = 260 :=
  (window_trim_and_average_spec exThresholds 5 ex6 (by decide)
    (by decide)).2.2.2.2.2.2.2.2.2

/-- C10: a metric key absent from a sample is recorded as the value `0` in
its window — recording the sample is indistinguishable from recording it
with that key explicitly `0`, and the window's newest entry is `0` — rather
than the sample being skipped or rejected. -/
theorem record_missing_key_as_zero (m : PerformanceMonitor) (x : Metrics) :
    (x.latency_ms = none →
      m.record x = m.record { x with latency_ms := some 0 }) ∧
    (x.cpu_percent = none →
      m.record x = m.record { x with cpu_percent := some 0 }) ∧
    (x.memory_mb = none →
      m.record x = m.record { x with memory_mb := some 0 }) ∧
    (x.fps = none →
      m.record x = m.record { x with fps := some 0 }) ∧
    (x.latency_ms = none → (m.record x).latency_ms.getLast? = some 0) ∧
    (x.cpu_percent = none → (m.record x).cpu_percent.getLast? = some 0) ∧
    (x.memory_mb = none → (m.record x).memory_mb.getLast? = some 0) ∧
    (x.fps = none → (m.record x).fps.getLast? = some 0) := by
  refine ⟨fun h => ?_, fun h => ?_, fun h => ?_, fun h => ?_, fun h => ?_,
    fun h => ?_, fun h => ?_, fun h => ?_⟩ <;>
    simp [PerformanceMonitor.record, h, getLast?_trimWindow]

/-- Witness for C10: recording `sample100`, which lacks the `fps` key, puts
`0` at the end of the `fps` window. -/
theorem record_missing_key_as_zero_witness :
    ((mkMonitor emptyThresholds 5).record sample100).fps.getLast? = some 0 :=
  (record_missing_key_as_zero (mkMonitor emptyThresholds 5) sample100).2.2.2.2.2.2.2
    rfl

/-- C9: a rejected `switch_approach` call (returning false) leaves the engine
state — in particular `current_approach` and `last_switch_time` — exactly as
it was. -/
theorem switch_approach_failure_preserves_state
    (e : GestureRecognitionEngine) (fr tgt : String) (now : ℚ)
    (h : (e.switch_approach fr tgt now).1 = false) :
    (e.switch_approach fr tgt now).2 = e := by
  unfold GestureRecognitionEngine.switch_approach at h ⊢
  split_ifs at h ⊢
  · rfl
  · rfl

/-- Witness for C9: switching to an unregistered approach leaves the engine
unchanged. -/
theorem switch_approach_failure_preserves_state_witness :
    ((initEngine cfgStatic).switch_approach "mediapipe" "nosuch" 0).2
      = initEngine cfgStatic :=
  switch_approach_failure_preserves_state (initEngine cfgStatic) "mediapipe"
    "nosuch" 0 (by decide)

/-- C1: `switch_approach(from, to)` returns false (with no state change)
when `to` is unregistered; in dynamic mode it returns false exactly when
strictly less than the cooldown has elapsed; otherwise it returns true, sets
`current_approach` to `to` and, in dynamic mode, `last_switch_time` to now.
Consequently a cooldown of `0` never blocks (for a monotonic clock), and a
second successful-call separated by at least the cooldown also succeeds. -/
theorem switch_approach_spec (e : GestureRecognitionEngine)
    (fr tgt : String) (now : ℚ) :
    ((e.switch_approach fr tgt now).1 = false ↔
      tgt ∉ e.get_available_approaches ∨
        (e.config.mode = some "dynamic" ∧
          now - e.last_switch_time < e.switch_cooldown)) ∧
    (tgt ∉ e.get_available_approaches →
      e.switch_approach fr tgt now = (false, e)) ∧
    ((e.switch_approach fr tgt now).1 = false →
      (e.switch_approach fr tgt now).2 = e) ∧
    ((e.switch_approach fr tgt now).1 = true →
      (e.switch_approach fr tgt now).2.current_approach = some tgt) ∧
    ((e.switch_approach fr tgt now).1 = true →
      e.config.mode = some "dynamic" →
      (e.switch_approach fr tgt now).2.last_switch_time = now) ∧
    (e.switch_cooldown = 0 → e.last_switch_time ≤ now →
      tgt ∈ e.get_available_approaches →
      (e.switch_approach fr tgt now).1 = true) ∧
    (∀ tgt2 : String, ∀ t2 : ℚ, (e.switch_approach fr tgt now).1 = true →
      tgt2 ∈ e.get_available_approaches → e.switch_cooldown ≤ t2 - now →
      (((e.switch_approach fr tgt now).2).switch_approach tgt tgt2 t2).1
        = true) := by
  unfold GestureRecognitionEngine.switch_approach
  by_cases h1 : tgt ∉ e.get_available_approaches
  · rw [if_pos h1]
    refine ⟨iff_of_true rfl (Or.inl h1), fun _ => rfl, fun _ => rfl,
      fun h => by simp at h, fun h => by simp at h,
      fun _ _ hmem => absurd hmem h1, fun _ _ h => by simp at h⟩
  · rw [if_neg h1]
    by_cases h2 : e.config.mode = some "dynamic" ∧
        now - e.last_switch_time < e.switch_cooldown
    · rw [if_pos h2]
      refine ⟨iff_of_true rfl (Or.inr h2), fun hn => absurd hn h1,
        fun _ => rfl, fun h => by simp at h, fun h => by simp at h,
        ?_, fun _ _ h => by simp at h⟩
      intro hcd hle _
      exfalso
      rw [hcd] at h2
      linarith [h2.2]
    · rw [if_neg h2]
      refine ⟨iff_of_false (by simp) (by tauto), fun hn => absurd hn h1,
        fun h => by simp at h, ?_, ?_, fun _ _ _ => rfl, ?_⟩
      · intro _
        by_cases hd : e.config.mode = some "dynamic" <;> simp [hd]
      · intro _ hd
        simp [hd]
      · intro tgt2 t2 _ hmem2 hcool
        by_cases hd : e.config.mode = some "dynamic"
        · have hlt : ¬ (t2 - now < e.switch_cooldown) := not_lt.mpr (by linarith)
          simp [GestureRecognitionEngine.switch_approach,
            GestureRecognitionEngine.get_available_approaches, hd, hmem2, hlt]
          rw [if_pos (show tgt2 ∈ e.config.approaches from hmem2)]
        · simp [GestureRecognitionEngine.switch_approach,
            GestureRecognitionEngine.get_available_approaches, hd, hmem2]
          rw [if_pos (show tgt2 ∈ e.config.approaches from hmem2)]

/-- Witness for C1: with the cooldown configured to `0`, a switch to the
registered approach succeeds immediately. -/
theorem switch_approach_spec_witness :
    ((initEngine cfgDynSingle).switch_approach "mediapipe" "mediapipe" 0).1
      = true :=
  ((switch_approach_spec (initEngine cfgDynSingle) "mediapipe" "mediapipe"
    0).2.2.2.2.2.1) (by decide) (by decide) (by decide)

/-- C6: `should_switch_dynamically()` returns none outside dynamic mode or
without a monitor; in dynamic mode it returns none when the monitor does not
recommend switching, and when it does recommend switching and some
registered approach differs from the current one, it returns the first such
name in the key order of `approaches`. -/
theorem should_switch_dynamically_spec (e : GestureRecognitionEngine) :
    ((e.config.mode ≠ some "dynamic" ∨ e.performance_monitor = none) →
      e.should_switch_dynamically = .ok none) ∧
    (∀ pm : PerformanceMonitor, e.config.mode = some "dynamic" →
      e.performance_monitor = some pm →
      (pm.should_switch = false → e.should_switch_dynamically = .ok none) ∧
      (pm.should_switch = true →
        ∀ a : String, e.get_available_approaches.find?
            (fun x => decide (some x ≠ e.current_approach)) = some a →
          e.should_switch_dynamically = .ok (some a))) := by
  constructor
  · rintro (hm | hpm)
    · unfold GestureRecognitionEngine.should_switch_dynamically
      rw [if_pos hm]
    · unfold GestureRecognitionEngine.should_switch_dynamically
      by_cases hm : e.config.mode ≠ some "dynamic"
      · rw [if_pos hm]
      · rw [if_neg hm, hpm]
  · intro pm hm hpm
    unfold GestureRecognitionEngine.should_switch_dynamically
    rw [if_neg (not_not_intro hm), hpm]
    dsimp only
    constructor
    · intro hss
      simp [hss]
    · intro hss a ha
      simp only [hss, if_true]
      have hh : (e.get_available_approaches.filter
          (fun x => decide (some x ≠ e.current_approach))).head? = some a := by
        rw [head?_filter_eq_find?]
        exact ha
      cases hfil : e.get_available_approaches.filter
          (fun x => decide (some x ≠ e.current_approach)) with
      | nil =>
        rw [hfil] at hh
        simp at hh
      | cons y t =>
        rw [hfil] at hh
        simp only [List.head?_cons, Option.some_inj] at hh
        subst hh
        rfl

/-- Witness for C6: the static engine has no monitor and reports no
switch. -/
theorem should_switch_dynamically_spec_witness :
    (initEngine cfgStatic).should_switch_dynamically = PyResult.ok none :=
  (should_switch_dynamically_spec (initEngine cfgStatic)).1 (Or.inr rfl)

/-- C8: in the reachable dynamic-mode state `engineC8` — monitor
recommending a switch, but the only registered approach equal to the current
one — `should_switch_dynamically()` raises `IndexError` instead of returning
none, because it indexes `[0]` into an empty filtered list. -/
theorem should_switch_dynamically_index_error :
    engineC8.should_switch_dynamically = PyResult.indexError := by
  unfold GestureRecognitionEngine.should_switch_dynamically
  have hmode : engineC8.config.mode = some "dynamic" := rfl
  rw [if_neg (not_not_intro hmode)]
  have hpm : engineC8.performance_monitor
      = some ⟨emptyThresholds, 1, [2000], [10], [100], [5]⟩ := by rfl
  rw [hpm]
  dsimp only
  have hss : (⟨emptyThresholds, 1, [2000], [10], [100], [5]⟩ :
      PerformanceMonitor).should_switch = true := by
    unfold PerformanceMonitor.should_switch PerformanceMonitor.get_average_metrics listAvg
    norm_num [emptyThresholds]
  rw [hss]
  rfl
